import Mathlib

/-!
Verification of the opensearch filtering layer
(`opensearch_filtering/opensearch/filters.py`).

The query-building core is embedded shallowly: Python values stored in
criteria data become the inductive `Value`, the opensearch `Search` object
becomes a record of accumulated clauses, sort directives and a pagination
window, and each filter primitive becomes a function from a search and a
value to a search.  Instance state (`self.data`) is threaded explicitly as
a `Search × Data` accumulator through the filtering folds, mirroring the
Python methods statement by statement.

Sorting, pagination and the two-sided range primitive are exercised by the
repository's tests but their implementation is not present in
`filters.py`; those parts are modelled from the specification and marked
as such in their doc comments.
-/

namespace OpensearchFiltering

/-- Python-level values that can appear in the criteria-data mapping:
`None`, strings, numbers and booleans. -/
inductive Value
  | none
  | str (s : String)
  | num (n : Int)
  | bool (b : Bool)
  deriving DecidableEq, Repr

/-- Python truthiness of a value, used by `if not value:` guards in
`CharFilter.filter` and `DateFilter.filter`. -/
def Value.truthy : Value → Bool
  | Value.none => false
  | Value.str s => !(s == "")
  | Value.num n => !(n == 0)
  | Value.bool b => b

/-- Python `str()` rendering of a value, used by the f-string in the
wildcard branch of `CharFilter.filter`. -/
def Value.pyStr : Value → String
  | Value.none => "None"
  | Value.str s => s
  | Value.num n => toString n
  | Value.bool b => if b then "True" else "False"

/-- The bound dictionary of an opensearch `range` clause: each of the four
bound keys is either absent or carries a value. -/
structure RangeBounds where
  gt : Option Value
  gte : Option Value
  lt : Option Value
  lte : Option Value
  deriving DecidableEq, Repr

/-- A query clause added by `Search.query`: either a simple
`kind`/`field`/`value` clause (match, term, wildcard, ...) or a `range`
clause carrying a bound dictionary. -/
inductive Clause
  | simple (kind : String) (fieldName : String) (value : Value)
  | range (fieldName : String) (bounds : RangeBounds)
  deriving DecidableEq, Repr

/-- The index field a clause constrains. -/
def Clause.field : Clause → String
  | Clause.simple _ f _ => f
  | Clause.range f _ => f

/-- The query accumulator: the index being searched, the conjunction of
accumulated clauses, the sort directives (field name, ascending flag) and
the pagination window, if one has been applied. -/
structure Search where
  index : String
  clauses : List Clause
  sorts : List (String × Bool)
  window : Option (Nat × Nat)
  deriving DecidableEq, Repr

/-- `search.query(kind, **{field: value})`: appends one clause. -/
def Search.query (s : Search) (c : Clause) : Search :=
  Search.mk s.index (s.clauses ++ [c]) s.sorts s.window

/-- `search.sort(field)`: appends one sort directive. -/
def Search.sortBy (s : Search) (fieldName : String) (asc : Bool) : Search :=
  Search.mk s.index s.clauses (s.sorts ++ [(fieldName, asc)]) s.window

/-- `search[start:stop]`: installs the half-open pagination window. -/
def Search.slice (s : Search) (start stop : Nat) : Search :=
  Search.mk s.index s.clauses s.sorts (some (start, stop))

/-- A document class: for query building only its index name matters. -/
structure Document where
  indexName : String
  deriving DecidableEq, Repr

/-- `Document.search()`: a fresh search scoped to the document's index. -/
def Document.search (d : Document) : Search :=
  Search.mk d.indexName [] [] Option.none

/-- `BookDocument` from `documents.py`, bound to the `books` index. -/
def BookDocument : Document := Document.mk "books"

/-- Criteria data: the flat mapping from filter names (plus reserved keys)
to raw values, as an association list keyed by its first occurrence. -/
abbrev Data : Type := List (String × Value)

/-- `data[key]` / `data.get(key)`: first binding of `key`, if any.
An entry whose value is `Value.none` models a key present with value
`None`, distinct from an absent key. -/
def Data.lookup : Data → String → Option Value
  | [], _ => Option.none
  | (k, v) :: rest, key => if k = key then some v else Data.lookup rest key

/-- `key in data`: key membership. -/
def Data.hasKey (d : Data) (k : String) : Bool :=
  (Data.lookup d k).isSome

/-- Removal of every binding of a key (used to state "as if the key were
not given"). -/
def Data.erase : Data → String → Data
  | [], _ => []
  | (k, v) :: rest, key =>
      if k = key then Data.erase rest key else (k, v) :: Data.erase rest key

/-- `CharFilter(field_name, lookup_expr)` from `filters.py`. -/
structure CharFilter where
  field_name : String
  lookup_expr : String
  deriving DecidableEq, Repr

/-- `CharFilter.filter`: no-op on a falsy value, otherwise one clause
chosen by the lookup expression (`match`, `term`, `wildcard` wrapping the
value in `*`...`*`, or the lookup passed through verbatim). -/
def CharFilter.filter (f : CharFilter) (search : Search) (value : Value) : Search :=
  if value.truthy = false then search
  else if f.lookup_expr = "match" then
    search.query (Clause.simple "match" f.field_name value)
  else if f.lookup_expr = "term" then
    search.query (Clause.simple "term" f.field_name value)
  else if f.lookup_expr = "wildcard" then
    search.query (Clause.simple "wildcard" f.field_name
      (Value.str ("*" ++ value.pyStr ++ "*")))
  else search.query (Clause.simple f.lookup_expr f.field_name value)

/-- `NumericFilter(field_name, lookup_expr)` from `filters.py`. -/
structure NumericFilter where
  field_name : String
  lookup_expr : String
  deriving DecidableEq, Repr

/-- `NumericFilter.filter`: no-op on `None` (`value is None`), otherwise a
`term` clause, a one-bound `range` clause for `gt`/`gte`/`lt`/`lte`, or
the lookup passed through verbatim. -/
def NumericFilter.filter (f : NumericFilter) (search : Search) (value : Value) : Search :=
  if value = Value.none then search
  else if f.lookup_expr = "term" then
    search.query (Clause.simple "term" f.field_name value)
  else if f.lookup_expr = "gt" then
    search.query (Clause.range f.field_name
      (RangeBounds.mk (some value) Option.none Option.none Option.none))
  else if f.lookup_expr = "gte" then
    search.query (Clause.range f.field_name
      (RangeBounds.mk Option.none (some value) Option.none Option.none))
  else if f.lookup_expr = "lt" then
    search.query (Clause.range f.field_name
      (RangeBounds.mk Option.none Option.none (some value) Option.none))
  else if f.lookup_expr = "lte" then
    search.query (Clause.range f.field_name
      (RangeBounds.mk Option.none Option.none Option.none (some value)))
  else search.query (Clause.simple f.lookup_expr f.field_name value)

/-- `DateFilter(field_name, lookup_expr)` from `filters.py`. -/
structure DateFilter where
  field_name : String
  lookup_expr : String
  deriving DecidableEq, Repr

/-- `DateFilter.filter`: no-op on a falsy value (`if not value`), then the
same lookup dispatch as the numeric filter. -/
def DateFilter.filter (f : DateFilter) (search : Search) (value : Value) : Search :=
  if value.truthy = false then search
  else if f.lookup_expr = "term" then
    search.query (Clause.simple "term" f.field_name value)
  else if f.lookup_expr = "gt" then
    search.query (Clause.range f.field_name
      (RangeBounds.mk (some value) Option.none Option.none Option.none))
  else if f.lookup_expr = "gte" then
    search.query (Clause.range f.field_name
      (RangeBounds.mk Option.none (some value) Option.none Option.none))
  else if f.lookup_expr = "lt" then
    search.query (Clause.range f.field_name
      (RangeBounds.mk Option.none Option.none (some value) Option.none))
  else if f.lookup_expr = "lte" then
    search.query (Clause.range f.field_name
      (RangeBounds.mk Option.none Option.none Option.none (some value)))
  else search.query (Clause.simple f.lookup_expr f.field_name value)

/-- `BooleanFilter(field_name)` from `filters.py`. -/
structure BooleanFilter where
  field_name : String
  deriving DecidableEq, Repr

/-- `BooleanFilter.filter`: no-op on `None`, otherwise a `term` clause. -/
def BooleanFilter.filter (f : BooleanFilter) (search : Search) (value : Value) : Search :=
  if value = Value.none then search
  else search.query (Clause.simple "term" f.field_name value)

/-- The filter primitives `filters.py` declares (subclasses of
`BaseFilter`). -/
inductive BaseFilter
  | char (f : CharFilter)
  | numeric (f : NumericFilter)
  | date (f : DateFilter)
  | boolean (f : BooleanFilter)
  deriving DecidableEq, Repr

/-- Dynamic dispatch of `filter` over the primitive kinds. -/
def BaseFilter.filter : BaseFilter → Search → Value → Search
  | BaseFilter.char f, s, v => CharFilter.filter f s v
  | BaseFilter.numeric f, s, v => NumericFilter.filter f s v
  | BaseFilter.date f, s, v => DateFilter.filter f s v
  | BaseFilter.boolean f, s, v => BooleanFilter.filter f s v

/-- One iteration of the loop in `FilterSet.filter`: if the filter's name
is a key of the instance's data, apply the filter to the search with that
key's value; the data component of the accumulator is read, never
written. -/
def FilterSet.step (nf : String × BaseFilter) (acc : Search × Data) : Search × Data :=
  match Data.lookup acc.2 nf.1 with
  | some v => (BaseFilter.filter nf.2 acc.1 v, acc.2)
  | Option.none => acc

/-- The loop of `FilterSet.filter` over the registry, threading the
search and the instance data explicitly. -/
def FilterSet.filterFold (filters : List (String × BaseFilter))
    (acc : Search × Data) : Search × Data :=
  filters.foldl (fun a nf => FilterSet.step nf a) acc

/-- `FilterSet.filter(search)`: the search returned by the loop. -/
def FilterSet.filter (filters : List (String × BaseFilter)) (d : Data)
    (s : Search) : Search :=
  (FilterSet.filterFold filters (s, d)).1

/-- The registry of `BookDocumentFilterSet` in declaration order, as
collected by `FilterSet.get_filters` from the class dictionary. -/
def bookFilters : List (String × BaseFilter) :=
  [("title", BaseFilter.char (CharFilter.mk "title" "match")),
   ("author", BaseFilter.char (CharFilter.mk "author" "match")),
   ("publication_date", BaseFilter.date (DateFilter.mk "publication_date" "term")),
   ("price", BaseFilter.numeric (NumericFilter.mk "price" "term")),
   ("price_min", BaseFilter.numeric (NumericFilter.mk "price" "gte")),
   ("price_max", BaseFilter.numeric (NumericFilter.mk "price" "lte"))]

/-- One iteration of the overridden loop in
`BookDocumentFilterSet.filter`: `price_min` and `price_max` are skipped
whenever the key `price` is present in the data, otherwise the base
iteration runs. -/
def BookDocumentFilterSet.step (nf : String × BaseFilter)
    (acc : Search × Data) : Search × Data :=
  if ((nf.1 == "price_min") || (nf.1 == "price_max")) && Data.hasKey acc.2 "price" then acc
  else FilterSet.step nf acc

/-- The loop of `BookDocumentFilterSet.filter` over `bookFilters`. -/
def BookDocumentFilterSet.filterFold (acc : Search × Data) : Search × Data :=
  bookFilters.foldl (fun a nf => BookDocumentFilterSet.step nf a) acc

/-- `BookDocumentFilterSet.filter(search)`. -/
def BookDocumentFilterSet.filter (d : Data) (s : Search) : Search :=
  (BookDocumentFilterSet.filterFold (s, d)).1

/-- A Python exception raised by the core: `filters.py` raises the
builtin `ValueError` (the specification's configuration error). -/
inductive PyError
  | valueError (msg : String)
  deriving DecidableEq, Repr

/-- The state of a successfully constructed document filter set: its
bound document, its criteria data and its registry. -/
structure DocumentFilterSetState where
  document : Document
  data : Data
  filters : List (String × BaseFilter)
  deriving DecidableEq, Repr

/-- `DocumentFilterSet.__init__`: after the base initializer stores the
data and the registry, construction fails with
`ValueError("DocumentFilterSet requires a document class")` when the
class-level `document` attribute is unbound (`None`). -/
def DocumentFilterSet.init (document : Option Document)
    (filters : List (String × BaseFilter)) (d : Data) :
    Except PyError DocumentFilterSetState :=
  match document with
  | Option.none =>
      Except.error (PyError.valueError "DocumentFilterSet requires a document class")
  | some doc => Except.ok (DocumentFilterSetState.mk doc d filters)

/-- Construction of `BookDocumentFilterSet`, whose class binds
`document = BookDocument`. -/
def BookDocumentFilterSet.init (d : Data) :
    Except PyError DocumentFilterSetState :=
  DocumentFilterSet.init (some BookDocument) bookFilters d

/-- The loop of `BookDocumentFilterSet.search()` with the instance data
threaded: build the document's base search, then filter it. -/
def BookDocumentFilterSet.searchFold (d : Data) : Search × Data :=
  BookDocumentFilterSet.filterFold (Document.search BookDocument, d)

/-- `BookDocumentFilterSet.search()` (named `searchQuery` here to keep
`Document.search` and the method distinct): the filtered search. -/
def BookDocumentFilterSet.searchQuery (d : Data) : Search :=
  (BookDocumentFilterSet.searchFold d).1

/-- Modelled from the spec: the pagination default `DEFAULT_PAGE_SIZE = 10`
of the document filter-set; the pagination algorithm is absent from
`filters.py` (the repository's tests exercise it). -/
def DEFAULT_PAGE_SIZE : Nat := 10

/-- Modelled from the spec: the pagination cap `MAX_PAGE_SIZE = 100`. -/
def MAX_PAGE_SIZE : Nat := 100

/-- Modelled from the spec: the fixed enumeration of allowed sort keys of
the book document filter-set, each mapped to its underlying index sort
field and direction (`true` = ascending); keys prefixed with `-` are the
descending variants.  The sort machinery is absent from `filters.py` (the
repository's tests exercise the keys listed here). -/
def bookSortFields : List (String × String × Bool) :=
  [("title_keyword", "title.keyword", true),
   ("-title_keyword", "title.keyword", false),
   ("price", "price", true),
   ("-price", "price", false),
   ("publication_date", "publication_date", true),
   ("-publication_date", "publication_date", false)]

/-- First sort-field entry registered under a key, if any. -/
def lookupSortField : List (String × String × Bool) → String → Option (String × Bool)
  | [], _ => Option.none
  | (k, f, dir) :: rest, key =>
      if k = key then some (f, dir) else lookupSortField rest key

/-- Modelled from the spec: the sort directive a criteria mapping
requests — the field and direction of the allowed sort key named by
`sort`, or nothing when `sort` is absent, not a string, or not an
allowed key. -/
def requestedSort (d : Data) : Option (String × Bool) :=
  match Data.lookup d "sort" with
  | some (Value.str k) => lookupSortField bookSortFields k
  | _ => Option.none

/-- Modelled from the spec: sort application of the book document
filter-set — if `sort` is present and maps to an allowed sort key, apply
a sort transformation with that key's field and direction; otherwise a
no-op.  Absent from `filters.py`. -/
def applySort (d : Data) (s : Search) : Search :=
  match requestedSort d with
  | some (f, dir) => Search.sortBy s f dir
  | Option.none => s

/-- Modelled from the spec: the effective page — 1 when `page` is absent,
non-numeric or less than 1.  Absent from `filters.py`. -/
def effectivePage (d : Data) : Nat :=
  match Data.lookup d "page" with
  | some (Value.num n) => if n < 1 then 1 else n.toNat
  | _ => 1

/-- Modelled from the spec: the effective page size —
`DEFAULT_PAGE_SIZE` when `page_size` is absent or less than 1, clamped
down to `MAX_PAGE_SIZE` when larger.  Absent from `filters.py`. -/
def effectivePageSize (d : Data) : Nat :=
  match Data.lookup d "page_size" with
  | some (Value.num n) =>
      if n < 1 then DEFAULT_PAGE_SIZE
      else if (MAX_PAGE_SIZE : Int) < n then MAX_PAGE_SIZE
      else n.toNat
  | _ => DEFAULT_PAGE_SIZE

/-- Modelled from the spec: the pagination window
`[start, start + size)` with `start = (page - 1) * size`, applied as a
slice of the accumulator.  Absent from `filters.py`. -/
def applyPagination (d : Data) (s : Search) : Search :=
  Search.slice s ((effectivePage d - 1) * effectivePageSize d)
    ((effectivePage d - 1) * effectivePageSize d + effectivePageSize d)

/-- Modelled from the spec: the overall `buildQuery()` contract of the
book document filter-set — base query for the bound document, filters
(with the precedence override from `filters.py`), then sort, then the
pagination window as the final step.  The sort and pagination stages are
absent from `filters.py` (the repository's tests exercise them). -/
def BookDocumentFilterSet.buildQuery (d : Data) : Search :=
  applyPagination d
    (applySort d (BookDocumentFilterSet.filter d (Document.search BookDocument)))

/-- Modelled from the spec: the two-sided range primitive, absent from
`filters.py` (the repository's tests exercise it through the
`price_min_value`/`price_max_value` criteria keys).  It accepts `min` and
`max` sub-values. -/
structure RangeFilter where
  field_name : String
  deriving DecidableEq, Repr

/-- Modelled from the spec: applying the range primitive builds a single
range clause combining a `gte` bound from `min` and an `lte` bound from
`max`, omitting a bound whose sub-value is absent; when both sub-values
are absent it is a no-op. -/
def RangeFilter.filter (f : RangeFilter) (search : Search)
    (minValue maxValue : Option Value) : Search :=
  match minValue, maxValue with
  | Option.none, Option.none => search
  | _, _ =>
      search.query (Clause.range f.field_name
        (RangeBounds.mk Option.none minValue Option.none maxValue))

/-- The book registry with the range counterparts of the exact price
filter removed: the reference point for the precedence rule ("the min/max
filters are not evaluated at all"). -/
def bookFiltersWithoutMinMax : List (String × BaseFilter) :=
  [("title", BaseFilter.char (CharFilter.mk "title" "match")),
   ("author", BaseFilter.char (CharFilter.mk "author" "match")),
   ("publication_date", BaseFilter.date (DateFilter.mk "publication_date" "term")),
   ("price", BaseFilter.numeric (NumericFilter.mk "price" "term"))]

/-! Helper lemmas. -/

theorem Data.lookup_cons_ne (k : String) (v : Value) (d : Data) (key : String)
    (h : k ≠ key) : Data.lookup ((k, v) :: d) key = Data.lookup d key := by
  show (if k = key then some v else Data.lookup d key) = Data.lookup d key
  rw [if_neg h]

theorem FilterSet.fstep_preserves_data (nf : String × BaseFilter) (acc : Search × Data) :
    (FilterSet.step nf acc).2 = acc.2 := by
  unfold FilterSet.step
  cases Data.lookup acc.2 nf.1 <;> rfl

theorem FilterSet.fold_preserves_data (filters : List (String × BaseFilter)) :
    ∀ acc : Search × Data, (FilterSet.filterFold filters acc).2 = acc.2 := by
  induction filters with
  | nil => intro acc; rfl
  | cons nf rest ih =>
      intro acc
      show (FilterSet.filterFold rest (FilterSet.step nf acc)).2 = acc.2
      rw [ih (FilterSet.step nf acc), FilterSet.fstep_preserves_data]

theorem BookDocumentFilterSet.bstep_preserves_data (nf : String × BaseFilter)
    (acc : Search × Data) : (BookDocumentFilterSet.step nf acc).2 = acc.2 := by
  unfold BookDocumentFilterSet.step
  split
  · rfl
  · exact FilterSet.fstep_preserves_data nf acc

theorem BookDocumentFilterSet.foldl_data (l : List (String × BaseFilter)) :
    ∀ acc : Search × Data,
      (List.foldl (fun a nf => BookDocumentFilterSet.step nf a) acc l).2 = acc.2 := by
  induction l with
  | nil => intro acc; rfl
  | cons nf rest ih =>
      intro acc
      show (List.foldl _ (BookDocumentFilterSet.step nf acc) rest).2 = acc.2
      rw [ih (BookDocumentFilterSet.step nf acc), BookDocumentFilterSet.bstep_preserves_data]

theorem BookDocumentFilterSet.bfold_preserves_data (acc : Search × Data) :
    (BookDocumentFilterSet.filterFold acc).2 = acc.2 :=
  BookDocumentFilterSet.foldl_data bookFilters acc

/-! Claim theorems. -/

/-- C4: constructing a document filter-set that does not designate a
document type raises the configuration error (Python `ValueError`)
immediately from `__init__`; construction with a bound document type —
in particular `BookDocumentFilterSet`, which binds `BookDocument` —
returns the constructed state and raises no error, so the check is never
deferred to query building. -/
theorem unbound_document_fails_at_construction
    (filters : List (String × BaseFilter)) (d : Data) (doc : Document) :
    DocumentFilterSet.init Option.none filters d
      = Except.error (PyError.valueError "DocumentFilterSet requires a document class")
    ∧ DocumentFilterSet.init (some doc) filters d
      = Except.ok (DocumentFilterSetState.mk doc d filters)
    ∧ BookDocumentFilterSet.init d
      = Except.ok (DocumentFilterSetState.mk BookDocument d bookFilters) :=
  ⟨rfl, rfl, rfl⟩

/-- C9: the filtering loops — the base `FilterSet.filter` loop, the
overridden `BookDocumentFilterSet.filter` loop and query building — leave
the instance's criteria data unchanged: the data component threaded
through the accumulator comes out equal to the data that went in. -/
theorem filtering_leaves_criteria_data_unchanged
    (filters : List (String × BaseFilter)) (d : Data) (s : Search) :
    (FilterSet.filterFold filters (s, d)).2 = d
    ∧ (BookDocumentFilterSet.filterFold (s, d)).2 = d
    ∧ (BookDocumentFilterSet.searchFold d).2 = d :=
  ⟨FilterSet.fold_preserves_data filters (s, d),
   BookDocumentFilterSet.bfold_preserves_data (s, d),
   BookDocumentFilterSet.bfold_preserves_data (Document.search BookDocument, d)⟩

/-- C8: query building is repeatable — running `search()` again on the
instance state left behind by a first run yields the same query, because
the criteria data is not mutated by query building. -/
theorem search_repeatable (d : Data) :
    (BookDocumentFilterSet.searchFold ((BookDocumentFilterSet.searchFold d).2)).1
      = (BookDocumentFilterSet.searchFold d).1 := by
  rw [show (BookDocumentFilterSet.searchFold d).2 = d from
    BookDocumentFilterSet.bfold_preserves_data (Document.search BookDocument, d)]

/-- C5: every filter primitive kind is a no-op on an absent, empty or
null value: the text and date primitives return the accumulator unchanged
on any falsy value (`None` or the empty string), and the numeric and
boolean primitives — whose typed domains have no empty value — return it
unchanged on `None`. -/
theorem primitives_noop_on_absent_empty_null (s : Search)
    (cf : CharFilter) (nf : NumericFilter) (df : DateFilter) (bf : BooleanFilter)
    (v : Value) (hv : v.truthy = false) :
    CharFilter.filter cf s v = s
    ∧ NumericFilter.filter nf s Value.none = s
    ∧ DateFilter.filter df s v = s
    ∧ BooleanFilter.filter bf s Value.none = s := by
  refine ⟨?_, ?_, ?_, ?_⟩
  · unfold CharFilter.filter
    rw [hv, if_pos rfl]
  · unfold NumericFilter.filter
    rw [if_pos rfl]
  · unfold DateFilter.filter
    rw [hv, if_pos rfl]
  · unfold BooleanFilter.filter
    rw [if_pos rfl]

/-- Witness for C5 at concrete inputs: the book filter-set's own filters
applied to the fresh book search with the empty string and `None`. -/
theorem primitives_noop_on_absent_empty_null_witness :
    CharFilter.filter (CharFilter.mk "title" "match") (Document.search BookDocument)
        (Value.str "") = Document.search BookDocument
    ∧ NumericFilter.filter (NumericFilter.mk "price" "term") (Document.search BookDocument)
        Value.none = Document.search BookDocument
    ∧ DateFilter.filter (DateFilter.mk "publication_date" "term") (Document.search BookDocument)
        (Value.str "") = Document.search BookDocument
    ∧ BooleanFilter.filter (BooleanFilter.mk "title") (Document.search BookDocument)
        Value.none = Document.search BookDocument :=
  primitives_noop_on_absent_empty_null (Document.search BookDocument)
    (CharFilter.mk "title" "match") (NumericFilter.mk "price" "term")
    (DateFilter.mk "publication_date" "term") (BooleanFilter.mk "title")
    (Value.str "") (by decide)

/-- C6: the two-sided range primitive is a no-op when both sub-values are
absent, and otherwise builds one range clause whose `gte` bound comes
from `min` and whose `lte` bound comes from `max`, each bound omitted
(`Option.none`) exactly when its sub-value is absent. -/
theorem range_primitive_two_sided (f : RangeFilter) (s : Search)
    (minValue maxValue : Option Value)
    (h : ¬(minValue = Option.none ∧ maxValue = Option.none)) :
    RangeFilter.filter f s Option.none Option.none = s
    ∧ RangeFilter.filter f s minValue maxValue
      = Search.query s (Clause.range f.field_name
          (RangeBounds.mk Option.none minValue Option.none maxValue)) := by
  constructor
  · rfl
  · cases minValue with
    | none =>
        cases maxValue with
        | none => exact absurd ⟨rfl, rfl⟩ h
        | some b => rfl
    | some a => cases maxValue <;> rfl

/-- Witness for C6: a min-only range on `price` over the fresh book
search builds a single `gte`-only range clause. -/
theorem range_primitive_two_sided_witness :
    RangeFilter.filter (RangeFilter.mk "price") (Document.search BookDocument)
        (some (Value.num 10)) Option.none
      = Search.query (Document.search BookDocument)
          (Clause.range "price"
            (RangeBounds.mk Option.none (some (Value.num 10)) Option.none Option.none)) :=
  (range_primitive_two_sided (RangeFilter.mk "price") (Document.search BookDocument)
    (some (Value.num 10)) Option.none (by simp)).2

theorem FilterSet.fstep_cons_unknown (k : String) (v : Value) (d : Data)
    (nf : String × BaseFilter) (s : Search) (hne : k ≠ nf.1) :
    FilterSet.step nf (s, (k, v) :: d)
      = ((FilterSet.step nf (s, d)).1, (k, v) :: d) := by
  simp only [FilterSet.step]
  rw [Data.lookup_cons_ne k v d nf.1 hne]
  cases Data.lookup d nf.1 <;> rfl

theorem FilterSet.filterFold_cons_unknown (k : String) (v : Value) (d : Data)
    (filters : List (String × BaseFilter)) :
    ∀ s : Search, (∀ nf ∈ filters, nf.1 ≠ k) →
      (FilterSet.filterFold filters (s, (k, v) :: d)).1
        = (FilterSet.filterFold filters (s, d)).1 := by
  induction filters with
  | nil => intro s _; rfl
  | cons nf rest ih =>
      intro s hk
      have hne : k ≠ nf.1 := Ne.symm (hk nf (List.mem_cons_self nf rest))
      have hrest : ∀ nf2 ∈ rest, nf2.1 ≠ k :=
        fun nf2 hm => hk nf2 (List.mem_cons_of_mem nf hm)
      show (FilterSet.filterFold rest (FilterSet.step nf (s, (k, v) :: d))).1
        = (FilterSet.filterFold rest (FilterSet.step nf (s, d))).1
      rw [FilterSet.fstep_cons_unknown k v d nf s hne, ih _ hrest]
      have heta : ((FilterSet.step nf (s, d)).1, d) = FilterSet.step nf (s, d) :=
        Prod.ext_iff.mpr ⟨rfl, (FilterSet.fstep_preserves_data nf (s, d)).symm⟩
      rw [heta]

theorem BookDocumentFilterSet.bstep_cons_unknown (k : String) (v : Value) (d : Data)
    (nf : String × BaseFilter) (s : Search) (hne : k ≠ nf.1) (hpr : k ≠ "price") :
    BookDocumentFilterSet.step nf (s, (k, v) :: d)
      = ((BookDocumentFilterSet.step nf (s, d)).1, (k, v) :: d) := by
  have hk : Data.hasKey ((k, v) :: d) "price" = Data.hasKey d "price" := by
    unfold Data.hasKey
    rw [Data.lookup_cons_ne k v d "price" hpr]
  show (if (((nf.1 == "price_min") || (nf.1 == "price_max"))
            && Data.hasKey ((k, v) :: d) "price") = true
        then (s, (k, v) :: d) else FilterSet.step nf (s, (k, v) :: d))
      = ((if (((nf.1 == "price_min") || (nf.1 == "price_max"))
            && Data.hasKey d "price") = true
        then (s, d) else FilterSet.step nf (s, d)).1, (k, v) :: d)
  rw [hk, FilterSet.fstep_cons_unknown k v d nf s hne]
  split <;> rfl

theorem BookDocumentFilterSet.foldl_cons_unknown (k : String) (v : Value) (d : Data)
    (l : List (String × BaseFilter)) :
    ∀ s : Search, (∀ nf ∈ l, nf.1 ≠ k) → k ≠ "price" →
      (List.foldl (fun a nf => BookDocumentFilterSet.step nf a) (s, (k, v) :: d) l).1
        = (List.foldl (fun a nf => BookDocumentFilterSet.step nf a) (s, d) l).1 := by
  induction l with
  | nil => intro s _ _; rfl
  | cons nf rest ih =>
      intro s hk hpr
      have hne : k ≠ nf.1 := Ne.symm (hk nf (List.mem_cons_self nf rest))
      have hrest : ∀ nf2 ∈ rest, nf2.1 ≠ k :=
        fun nf2 hm => hk nf2 (List.mem_cons_of_mem nf hm)
      show (List.foldl _ (BookDocumentFilterSet.step nf (s, (k, v) :: d)) rest).1
        = (List.foldl _ (BookDocumentFilterSet.step nf (s, d)) rest).1
      rw [BookDocumentFilterSet.bstep_cons_unknown k v d nf s hne hpr, ih _ hrest hpr]
      have heta : ((BookDocumentFilterSet.step nf (s, d)).1, d)
          = BookDocumentFilterSet.step nf (s, d) :=
        Prod.ext_iff.mpr ⟨rfl, (BookDocumentFilterSet.bstep_preserves_data nf (s, d)).symm⟩
      rw [heta]

/-- C7: a criteria key that is not the name of a declared filter has no
effect — filtering with the data extended by an unknown key (under both
the base loop over any registry and the book filter-set's overridden
loop) yields exactly the query obtained without it, and no error arises
(the embedded operations are total). -/
theorem unknown_criteria_keys_ignored
    (filters : List (String × BaseFilter)) (d : Data) (s : Search)
    (k : String) (v : Value)
    (hk : ∀ nf ∈ filters, nf.1 ≠ k)
    (hb : ∀ nf ∈ bookFilters, nf.1 ≠ k) :
    FilterSet.filter filters ((k, v) :: d) s = FilterSet.filter filters d s
    ∧ BookDocumentFilterSet.filter ((k, v) :: d) s
      = BookDocumentFilterSet.filter d s := by
  have hpm : ("price", BaseFilter.numeric (NumericFilter.mk "price" "term")) ∈ bookFilters := by
    simp [bookFilters]
  have hpr : k ≠ "price" := Ne.symm (hb _ hpm)
  exact ⟨FilterSet.filterFold_cons_unknown k v d filters s hk,
    BookDocumentFilterSet.foldl_cons_unknown k v d bookFilters s hb hpr⟩

/-- Witness for C7: the key `zzz` is declared by no filter; adding it to
the criteria leaves both filtering loops' output unchanged. -/
theorem unknown_criteria_keys_ignored_witness :
    FilterSet.filter bookFilters [("zzz", Value.num 1)] (Document.search BookDocument)
      = FilterSet.filter bookFilters [] (Document.search BookDocument)
    ∧ BookDocumentFilterSet.filter [("zzz", Value.num 1)] (Document.search BookDocument)
      = BookDocumentFilterSet.filter [] (Document.search BookDocument) :=
  unknown_criteria_keys_ignored bookFilters [] (Document.search BookDocument) "zzz"
    (Value.num 1) (by decide) (by decide)

theorem BookDocumentFilterSet.step_skip_min (acc : Search × Data)
    (h : Data.hasKey acc.2 "price" = true) :
    BookDocumentFilterSet.step
      ("price_min", BaseFilter.numeric (NumericFilter.mk "price" "gte")) acc = acc := by
  show (if Data.hasKey acc.2 "price" = true then acc
        else FilterSet.step
          ("price_min", BaseFilter.numeric (NumericFilter.mk "price" "gte")) acc) = acc
  rw [h, if_pos rfl]

theorem BookDocumentFilterSet.step_skip_max (acc : Search × Data)
    (h : Data.hasKey acc.2 "price" = true) :
    BookDocumentFilterSet.step
      ("price_max", BaseFilter.numeric (NumericFilter.mk "price" "lte")) acc = acc := by
  show (if Data.hasKey acc.2 "price" = true then acc
        else FilterSet.step
          ("price_max", BaseFilter.numeric (NumericFilter.mk "price" "lte")) acc) = acc
  rw [h, if_pos rfl]

theorem BookDocumentFilterSet.fold_skips_minmax (d : Data)
    (hkey : Data.hasKey d "price" = true) (s : Search) :
    BookDocumentFilterSet.filterFold (s, d)
      = FilterSet.filterFold bookFiltersWithoutMinMax (s, d) := by
  have h2 : (FilterSet.filterFold bookFiltersWithoutMinMax (s, d)).2 = d :=
    FilterSet.fold_preserves_data _ _
  have hmin := BookDocumentFilterSet.step_skip_min
    (FilterSet.filterFold bookFiltersWithoutMinMax (s, d)) (by rw [h2]; exact hkey)
  have hmax := BookDocumentFilterSet.step_skip_max
    (FilterSet.filterFold bookFiltersWithoutMinMax (s, d)) (by rw [h2]; exact hkey)
  calc BookDocumentFilterSet.filterFold (s, d)
      = BookDocumentFilterSet.step
          ("price_max", BaseFilter.numeric (NumericFilter.mk "price" "lte"))
          (BookDocumentFilterSet.step
            ("price_min", BaseFilter.numeric (NumericFilter.mk "price" "gte"))
            (FilterSet.filterFold bookFiltersWithoutMinMax (s, d))) := rfl
    _ = FilterSet.filterFold bookFiltersWithoutMinMax (s, d) := by rw [hmin, hmax]

theorem Search.query_simple_not_range (s : Search) (kind fld : String) (u : Value)
    (b : RangeBounds) (h : Clause.range "price" b ∉ s.clauses) :
    Clause.range "price" b ∉ (Search.query s (Clause.simple kind fld u)).clauses := by
  intro hc
  rcases List.mem_append.mp hc with h1 | h2
  · exact h h1
  · exact Clause.noConfusion (List.mem_singleton.mp h2)

theorem CharFilter.filter_no_price_range (f : CharFilter) (s : Search) (u : Value)
    (b : RangeBounds) (h : Clause.range "price" b ∉ s.clauses) :
    Clause.range "price" b ∉ (CharFilter.filter f s u).clauses := by
  unfold CharFilter.filter
  repeat' split
  all_goals first
  | exact h
  | exact Search.query_simple_not_range s _ _ _ b h

theorem NumericFilter.term_numeric_no_price_range (fld : String) (s : Search)
    (u : Value) (b : RangeBounds) (h : Clause.range "price" b ∉ s.clauses) :
    Clause.range "price" b
      ∉ (NumericFilter.filter (NumericFilter.mk fld "term") s u).clauses := by
  rw [show NumericFilter.filter (NumericFilter.mk fld "term") s u
      = if u = Value.none then s
        else Search.query s (Clause.simple "term" fld u) from rfl]
  split
  · exact h
  · exact Search.query_simple_not_range s _ _ _ b h

theorem DateFilter.term_date_no_price_range (fld : String) (s : Search)
    (u : Value) (b : RangeBounds) (h : Clause.range "price" b ∉ s.clauses) :
    Clause.range "price" b
      ∉ (DateFilter.filter (DateFilter.mk fld "term") s u).clauses := by
  rw [show DateFilter.filter (DateFilter.mk fld "term") s u
      = if u.truthy = false then s
        else Search.query s (Clause.simple "term" fld u) from rfl]
  split
  · exact h
  · exact Search.query_simple_not_range s _ _ _ b h

theorem FilterSet.step_no_price_range (nf : String × BaseFilter) (acc : Search × Data)
    (b : RangeBounds)
    (hsafe : ∀ (s0 : Search) (u : Value), Clause.range "price" b ∉ s0.clauses →
        Clause.range "price" b ∉ (BaseFilter.filter nf.2 s0 u).clauses)
    (h : Clause.range "price" b ∉ acc.1.clauses) :
    Clause.range "price" b ∉ (FilterSet.step nf acc).1.clauses := by
  simp only [FilterSet.step]
  cases Data.lookup acc.2 nf.1
  · exact h
  · exact hsafe acc.1 _ h

theorem FilterSet.step_price_term_mem (acc : Search × Data) (v : Value)
    (hY : Data.lookup acc.2 "price" = some v) (hv : v ≠ Value.none) :
    Clause.simple "term" "price" v
      ∈ (FilterSet.step
          ("price", BaseFilter.numeric (NumericFilter.mk "price" "term")) acc).1.clauses := by
  simp only [FilterSet.step]
  rw [hY]
  show Clause.simple "term" "price" v
    ∈ (NumericFilter.filter (NumericFilter.mk "price" "term") acc.1 v).clauses
  rw [show NumericFilter.filter (NumericFilter.mk "price" "term") acc.1 v
      = if v = Value.none then acc.1
        else Search.query acc.1 (Clause.simple "term" "price" v) from rfl]
  rw [if_neg hv]
  simp [Search.query]

/-- C1: when the key `price` is present with a non-null value, the
overridden filter loop never evaluates `price_min`/`price_max` —
filtering coincides with the loop over the registry with those two
filters removed — while the exact price filter does run, so the final
query's clauses contain the exact `term` clause on `price` and no range
clause on `price` whatsoever. -/
theorem exact_price_filter_takes_precedence (d : Data) (v : Value)
    (hp : Data.lookup d "price" = some v) (hv : v ≠ Value.none) :
    (∀ s, BookDocumentFilterSet.filter d s
      = FilterSet.filter bookFiltersWithoutMinMax d s)
    ∧ Clause.simple "term" "price" v ∈ (BookDocumentFilterSet.searchQuery d).clauses
    ∧ ∀ b : RangeBounds,
        Clause.range "price" b ∉ (BookDocumentFilterSet.searchQuery d).clauses := by
  have hkey : Data.hasKey d "price" = true := by
    unfold Data.hasKey
    rw [hp]
    rfl
  refine ⟨?_, ?_, ?_⟩
  · intro s
    exact congrArg Prod.fst (BookDocumentFilterSet.fold_skips_minmax d hkey s)
  · show Clause.simple "term" "price" v
      ∈ (BookDocumentFilterSet.filterFold (Document.search BookDocument, d)).1.clauses
    rw [BookDocumentFilterSet.fold_skips_minmax d hkey]
    show Clause.simple "term" "price" v
      ∈ (FilterSet.step ("price", BaseFilter.numeric (NumericFilter.mk "price" "term"))
          (FilterSet.filterFold
            [("title", BaseFilter.char (CharFilter.mk "title" "match")),
             ("author", BaseFilter.char (CharFilter.mk "author" "match")),
             ("publication_date", BaseFilter.date (DateFilter.mk "publication_date" "term"))]
            (Document.search BookDocument, d))).1.clauses
    refine FilterSet.step_price_term_mem _ v ?_ hv
    rw [FilterSet.fold_preserves_data]
    exact hp
  · intro b
    show Clause.range "price" b
      ∉ (BookDocumentFilterSet.filterFold (Document.search BookDocument, d)).1.clauses
    rw [BookDocumentFilterSet.fold_skips_minmax d hkey]
    show Clause.range "price" b
      ∉ (FilterSet.step ("price", BaseFilter.numeric (NumericFilter.mk "price" "term"))
          (FilterSet.step ("publication_date", BaseFilter.date (DateFilter.mk "publication_date" "term"))
            (FilterSet.step ("author", BaseFilter.char (CharFilter.mk "author" "match"))
              (FilterSet.step ("title", BaseFilter.char (CharFilter.mk "title" "match"))
                (Document.search BookDocument, d))))).1.clauses
    apply FilterSet.step_no_price_range
    · intro s0 u h0
      exact NumericFilter.term_numeric_no_price_range "price" s0 u b h0
    apply FilterSet.step_no_price_range
    · intro s0 u h0
      exact DateFilter.term_date_no_price_range "publication_date" s0 u b h0
    apply FilterSet.step_no_price_range
    · intro s0 u h0
      exact CharFilter.filter_no_price_range _ s0 u b h0
    apply FilterSet.step_no_price_range
    · intro s0 u h0
      exact CharFilter.filter_no_price_range _ s0 u b h0
    · intro hc
      exact List.not_mem_nil _ hc

/-- Witness for C1: with `price = 30` and usable `price_min`/`price_max`
values present, the final query contains the exact `term` clause on
`price`. -/
theorem exact_price_filter_takes_precedence_witness :
    Clause.simple "term" "price" (Value.num 30)
      ∈ (BookDocumentFilterSet.searchQuery
          [("price", Value.num 30), ("price_min", Value.num 10),
           ("price_max", Value.num 50)]).clauses :=
  (exact_price_filter_takes_precedence
    [("price", Value.num 30), ("price_min", Value.num 10), ("price_max", Value.num 50)]
    (Value.num 30) rfl (by decide)).2.1

theorem Search.query_field_ne (s : Search) (c : Clause) (fld : String)
    (hc : Clause.field c ≠ fld)
    (h : ∀ c0 ∈ s.clauses, Clause.field c0 ≠ fld) :
    ∀ c0 ∈ (Search.query s c).clauses, Clause.field c0 ≠ fld := by
  intro c0 hc0
  rcases List.mem_append.mp hc0 with h1 | h2
  · exact h c0 h1
  · rw [List.mem_singleton.mp h2]
    exact hc

theorem CharFilter.filter_fields (f : CharFilter) (s : Search) (u : Value)
    (fld : String) (hf : f.field_name ≠ fld)
    (h : ∀ c ∈ s.clauses, Clause.field c ≠ fld) :
    ∀ c ∈ (CharFilter.filter f s u).clauses, Clause.field c ≠ fld := by
  unfold CharFilter.filter
  repeat' split
  all_goals first
  | exact h
  | exact Search.query_field_ne s _ fld hf h

theorem DateFilter.term_filter_fields (fld0 : String) (s : Search) (u : Value)
    (fld : String) (hf : fld0 ≠ fld)
    (h : ∀ c ∈ s.clauses, Clause.field c ≠ fld) :
    ∀ c ∈ (DateFilter.filter (DateFilter.mk fld0 "term") s u).clauses,
      Clause.field c ≠ fld := by
  rw [show DateFilter.filter (DateFilter.mk fld0 "term") s u
      = if u.truthy = false then s
        else Search.query s (Clause.simple "term" fld0 u) from rfl]
  split
  · exact h
  · exact Search.query_field_ne s _ fld hf h

theorem FilterSet.step_fields (nf : String × BaseFilter) (acc : Search × Data)
    (fld : String)
    (hsafe : ∀ (s0 : Search) (u : Value),
        (∀ c ∈ s0.clauses, Clause.field c ≠ fld) →
        ∀ c ∈ (BaseFilter.filter nf.2 s0 u).clauses, Clause.field c ≠ fld)
    (h : ∀ c ∈ acc.1.clauses, Clause.field c ≠ fld) :
    ∀ c ∈ (FilterSet.step nf acc).1.clauses, Clause.field c ≠ fld := by
  simp only [FilterSet.step]
  cases Data.lookup acc.2 nf.1
  · exact h
  · exact hsafe acc.1 _ h

theorem FilterSet.step_price_null_skip (acc : Search × Data)
    (hY : Data.lookup acc.2 "price" = some Value.none) :
    FilterSet.step
      ("price", BaseFilter.numeric (NumericFilter.mk "price" "term")) acc = acc := by
  simp only [FilterSet.step]
  rw [hY]
  rfl

/-- C10: when the key `price` is present but bound to `None`, mere key
presence still suppresses `price_min`/`price_max` (the loop coincides
with the registry without them), and the exact price filter itself is a
no-op on `None`, so the final query contains no clause on the `price`
field at all — even when `price_min`/`price_max` carry usable values. -/
theorem null_price_yields_no_price_clause (d : Data)
    (hp : Data.lookup d "price" = some Value.none) :
    (∀ s, BookDocumentFilterSet.filter d s
      = FilterSet.filter bookFiltersWithoutMinMax d s)
    ∧ ∀ c ∈ (BookDocumentFilterSet.searchQuery d).clauses,
        Clause.field c ≠ "price" := by
  have hkey : Data.hasKey d "price" = true := by
    unfold Data.hasKey
    rw [hp]
    rfl
  constructor
  · intro s
    exact congrArg Prod.fst (BookDocumentFilterSet.fold_skips_minmax d hkey s)
  · show ∀ c ∈ (BookDocumentFilterSet.filterFold (Document.search BookDocument, d)).1.clauses,
      Clause.field c ≠ "price"
    rw [BookDocumentFilterSet.fold_skips_minmax d hkey]
    show ∀ c ∈ (FilterSet.step ("price", BaseFilter.numeric (NumericFilter.mk "price" "term"))
        (FilterSet.filterFold
          [("title", BaseFilter.char (CharFilter.mk "title" "match")),
           ("author", BaseFilter.char (CharFilter.mk "author" "match")),
           ("publication_date", BaseFilter.date (DateFilter.mk "publication_date" "term"))]
          (Document.search BookDocument, d))).1.clauses,
      Clause.field c ≠ "price"
    rw [FilterSet.step_price_null_skip _ (by rw [FilterSet.fold_preserves_data]; exact hp)]
    show ∀ c ∈ (FilterSet.step ("publication_date", BaseFilter.date (DateFilter.mk "publication_date" "term"))
        (FilterSet.step ("author", BaseFilter.char (CharFilter.mk "author" "match"))
          (FilterSet.step ("title", BaseFilter.char (CharFilter.mk "title" "match"))
            (Document.search BookDocument, d)))).1.clauses,
      Clause.field c ≠ "price"
    apply FilterSet.step_fields
    · intro s0 u h0
      exact DateFilter.term_filter_fields "publication_date" s0 u "price" (by decide) h0
    apply FilterSet.step_fields
    · intro s0 u h0
      exact CharFilter.filter_fields _ s0 u "price" (by decide) h0
    apply FilterSet.step_fields
    · intro s0 u h0
      exact CharFilter.filter_fields _ s0 u "price" (by decide) h0
    · intro c hc
      exact absurd hc (List.not_mem_nil c)

/-- Witness for C10: with `price = None` and usable range values, the
overridden loop coincides with the registry without `price_min`/`price_max`
on the fresh book search. -/
theorem null_price_yields_no_price_clause_witness :
    BookDocumentFilterSet.filter
        [("price", Value.none), ("price_min", Value.num 10), ("price_max", Value.num 50)]
        (Document.search BookDocument)
      = FilterSet.filter bookFiltersWithoutMinMax
        [("price", Value.none), ("price_min", Value.num 10), ("price_max", Value.num 50)]
        (Document.search BookDocument) :=
  (null_price_yields_no_price_clause
    [("price", Value.none), ("price_min", Value.num 10), ("price_max", Value.num 50)]
    rfl).1 (Document.search BookDocument)

/-- C2: the pagination window is applied as the final step of query
building — the built query's window is exactly
`[(page - 1) * size, (page - 1) * size + size)` while its clauses and
sorts are those of the sort stage — and the effective page and page size
obey the defaulting and clamping rules: page 1 when `page` is absent,
non-numeric or less than 1; `DEFAULT_PAGE_SIZE` (10) when `page_size` is
absent or less than 1; `MAX_PAGE_SIZE` (100) when it is larger.  The
window is present for every criteria mapping, including the empty one. -/
theorem pagination_window_applied_last (d : Data) :
    (BookDocumentFilterSet.buildQuery d).window
      = some ((effectivePage d - 1) * effectivePageSize d,
          (effectivePage d - 1) * effectivePageSize d + effectivePageSize d)
    ∧ (BookDocumentFilterSet.buildQuery d).clauses
      = (applySort d (BookDocumentFilterSet.filter d (Document.search BookDocument))).clauses
    ∧ (BookDocumentFilterSet.buildQuery d).sorts
      = (applySort d (BookDocumentFilterSet.filter d (Document.search BookDocument))).sorts
    ∧ 1 ≤ effectivePage d
    ∧ (Data.lookup d "page" = Option.none → effectivePage d = 1)
    ∧ (∀ k, Data.lookup d "page" = some (Value.str k) → effectivePage d = 1)
    ∧ (∀ n : Int, Data.lookup d "page" = some (Value.num n) → n < 1 →
        effectivePage d = 1)
    ∧ (Data.lookup d "page_size" = Option.none →
        effectivePageSize d = DEFAULT_PAGE_SIZE)
    ∧ (∀ n : Int, Data.lookup d "page_size" = some (Value.num n) → n < 1 →
        effectivePageSize d = DEFAULT_PAGE_SIZE)
    ∧ (∀ n : Int, Data.lookup d "page_size" = some (Value.num n) →
        (MAX_PAGE_SIZE : Int) < n → effectivePageSize d = MAX_PAGE_SIZE)
    ∧ DEFAULT_PAGE_SIZE = 10 ∧ MAX_PAGE_SIZE = 100 := by
  refine ⟨rfl, rfl, rfl, ?_, ?_, ?_, ?_, ?_, ?_, ?_, rfl, rfl⟩
  · unfold effectivePage
    cases Data.lookup d "page" with
    | none => exact Nat.le_refl 1
    | some v =>
        cases v with
        | none => exact Nat.le_refl 1
        | str s => exact Nat.le_refl 1
        | num n =>
            show 1 ≤ if n < 1 then 1 else n.toNat
            split
            · exact Nat.le_refl 1
            · next h => omega
        | bool b => exact Nat.le_refl 1
  · intro h
    unfold effectivePage
    rw [h]
  · intro k h
    unfold effectivePage
    rw [h]
  · intro n h hn
    unfold effectivePage
    rw [h]
    exact if_pos hn
  · intro h
    unfold effectivePageSize
    rw [h]
  · intro n h hn
    unfold effectivePageSize
    rw [h]
    exact if_pos hn
  · intro n h hn
    unfold effectivePageSize
    rw [h]
    have hn2 : (100 : Int) < n := hn
    exact (if_neg (show ¬ n < 1 by omega)).trans (if_pos hn)

/-- Witness for C2: the empty criteria get the default window `[0, 10)`;
`page = 0` is normalized to 1; `page_size = 250` is clamped to 100. -/
theorem pagination_window_applied_last_witness :
    (BookDocumentFilterSet.buildQuery []).window = some (0, 10)
    ∧ effectivePage [("page", Value.num 0)] = 1
    ∧ effectivePageSize [("page_size", Value.num 250)] = MAX_PAGE_SIZE := by
  refine ⟨?_, ?_, ?_⟩
  · rw [(pagination_window_applied_last []).1]
    rfl
  · exact (pagination_window_applied_last [("page", Value.num 0)]).2.2.2.2.2.2.1
      0 rfl (by decide)
  · exact (pagination_window_applied_last
      [("page_size", Value.num 250)]).2.2.2.2.2.2.2.2.2.1 250 rfl (by decide)

theorem Data.lookup_erase_self (d : Data) (k : String) :
    Data.lookup (Data.erase d k) k = Option.none := by
  induction d with
  | nil => rfl
  | cons kv rest ih =>
      obtain ⟨k1, v1⟩ := kv
      show Data.lookup
        (if k1 = k then Data.erase rest k else (k1, v1) :: Data.erase rest k) k
        = Option.none
      split
      · exact ih
      · next h =>
          show (if k1 = k then some v1 else Data.lookup (Data.erase rest k) k)
            = Option.none
          rw [if_neg h]
          exact ih

theorem Data.lookup_erase_ne (d : Data) (k key : String) (h : key ≠ k) :
    Data.lookup (Data.erase d k) key = Data.lookup d key := by
  induction d with
  | nil => rfl
  | cons kv rest ih =>
      obtain ⟨k1, v1⟩ := kv
      show Data.lookup
        (if k1 = k then Data.erase rest k else (k1, v1) :: Data.erase rest k) key
        = (if k1 = key then some v1 else Data.lookup rest key)
      split
      · next h1 =>
          have hne : k1 ≠ key := by
            rw [h1]
            exact Ne.symm h
          rw [ih, if_neg hne]
      · next h1 =>
          show (if k1 = key then some v1 else Data.lookup (Data.erase rest k) key)
            = (if k1 = key then some v1 else Data.lookup rest key)
          split
          · rfl
          · exact ih

theorem BookDocumentFilterSet.step_congr (nf : String × BaseFilter) (s : Search)
    (d d' : Data) (h0 : Data.lookup d nf.1 = Data.lookup d' nf.1)
    (hpr : Data.lookup d "price" = Data.lookup d' "price") :
    BookDocumentFilterSet.step nf (s, d)
      = ((BookDocumentFilterSet.step nf (s, d')).1, d) := by
  have hk : Data.hasKey d "price" = Data.hasKey d' "price" := by
    unfold Data.hasKey
    rw [hpr]
  simp only [BookDocumentFilterSet.step, FilterSet.step]
  rw [hk, h0]
  split
  · rfl
  · cases Data.lookup d' nf.1 <;> rfl

theorem BookDocumentFilterSet.foldl_congr (d d' : Data)
    (hpr : Data.lookup d "price" = Data.lookup d' "price")
    (l : List (String × BaseFilter)) :
    ∀ s : Search, (∀ nf ∈ l, Data.lookup d nf.1 = Data.lookup d' nf.1) →
      (List.foldl (fun a nf => BookDocumentFilterSet.step nf a) (s, d) l).1
        = (List.foldl (fun a nf => BookDocumentFilterSet.step nf a) (s, d') l).1 := by
  induction l with
  | nil => intro s _; rfl
  | cons nf rest ih =>
      intro s hl
      have h0 := hl nf (List.mem_cons_self nf rest)
      have hrest : ∀ nf2 ∈ rest, Data.lookup d nf2.1 = Data.lookup d' nf2.1 :=
        fun nf2 hm => hl nf2 (List.mem_cons_of_mem nf hm)
      show (List.foldl _ (BookDocumentFilterSet.step nf (s, d)) rest).1
        = (List.foldl _ (BookDocumentFilterSet.step nf (s, d')) rest).1
      rw [BookDocumentFilterSet.step_congr nf s d d' h0 hpr, ih _ hrest]
      have heta : ((BookDocumentFilterSet.step nf (s, d')).1, d')
          = BookDocumentFilterSet.step nf (s, d') :=
        Prod.ext_iff.mpr ⟨rfl, (BookDocumentFilterSet.bstep_preserves_data nf (s, d')).symm⟩
      rw [heta]

theorem effectivePage_erase_sort (d : Data) :
    effectivePage (Data.erase d "sort") = effectivePage d := by
  unfold effectivePage
  rw [Data.lookup_erase_ne d "sort" "page" (by decide)]

theorem effectivePageSize_erase_sort (d : Data) :
    effectivePageSize (Data.erase d "sort") = effectivePageSize d := by
  unfold effectivePageSize
  rw [Data.lookup_erase_ne d "sort" "page_size" (by decide)]

theorem requestedSort_erase_sort (d : Data) :
    requestedSort (Data.erase d "sort") = Option.none := by
  unfold requestedSort
  rw [Data.lookup_erase_self d "sort"]

theorem applySort_erase_sort (d : Data) (s : Search) :
    applySort (Data.erase d "sort") s = s := by
  unfold applySort
  rw [requestedSort_erase_sort d]

theorem CharFilter.charFilter_sorts (f : CharFilter) (s : Search) (u : Value) :
    (CharFilter.filter f s u).sorts = s.sorts := by
  unfold CharFilter.filter
  repeat' split
  all_goals rfl

theorem NumericFilter.numericFilter_sorts (f : NumericFilter) (s : Search) (u : Value) :
    (NumericFilter.filter f s u).sorts = s.sorts := by
  unfold NumericFilter.filter
  repeat' split
  all_goals rfl

theorem DateFilter.dateFilter_sorts (f : DateFilter) (s : Search) (u : Value) :
    (DateFilter.filter f s u).sorts = s.sorts := by
  unfold DateFilter.filter
  repeat' split
  all_goals rfl

theorem BooleanFilter.booleanFilter_sorts (f : BooleanFilter) (s : Search) (u : Value) :
    (BooleanFilter.filter f s u).sorts = s.sorts := by
  unfold BooleanFilter.filter
  split
  all_goals rfl

theorem BaseFilter.baseFilter_sorts (bf : BaseFilter) (s : Search) (u : Value) :
    (BaseFilter.filter bf s u).sorts = s.sorts := by
  cases bf with
  | char f => exact CharFilter.charFilter_sorts f s u
  | numeric f => exact NumericFilter.numericFilter_sorts f s u
  | date f => exact DateFilter.dateFilter_sorts f s u
  | boolean f => exact BooleanFilter.booleanFilter_sorts f s u

theorem FilterSet.fstep_sorts (nf : String × BaseFilter) (acc : Search × Data) :
    (FilterSet.step nf acc).1.sorts = acc.1.sorts := by
  simp only [FilterSet.step]
  cases Data.lookup acc.2 nf.1
  · rfl
  · exact BaseFilter.baseFilter_sorts _ _ _

theorem BookDocumentFilterSet.bstep_sorts (nf : String × BaseFilter)
    (acc : Search × Data) :
    (BookDocumentFilterSet.step nf acc).1.sorts = acc.1.sorts := by
  unfold BookDocumentFilterSet.step
  split
  · rfl
  · exact FilterSet.fstep_sorts nf acc

theorem BookDocumentFilterSet.foldl_sorts (l : List (String × BaseFilter)) :
    ∀ acc : Search × Data,
      (List.foldl (fun a nf => BookDocumentFilterSet.step nf a) acc l).1.sorts
        = acc.1.sorts := by
  induction l with
  | nil => intro acc; rfl
  | cons nf rest ih =>
      intro acc
      show (List.foldl _ (BookDocumentFilterSet.step nf acc) rest).1.sorts = acc.1.sorts
      rw [ih (BookDocumentFilterSet.step nf acc), BookDocumentFilterSet.bstep_sorts]

/-- C3: when `sort` maps to an allowed sort key, the sort stage applies a
sort transformation with that key's field and direction — so the built
query carries exactly that sort directive — and when `sort` maps to no
allowed key, the query is built exactly as if the `sort` key were not
given at all (a no-op, never an error). -/
theorem sort_key_application (d : Data) (k : String)
    (hs : Data.lookup d "sort" = some (Value.str k)) :
    (∀ fld dir, lookupSortField bookSortFields k = some (fld, dir) →
        ∀ s, applySort d s = Search.sortBy s fld dir)
    ∧ (∀ fld dir, lookupSortField bookSortFields k = some (fld, dir) →
        (BookDocumentFilterSet.buildQuery d).sorts = [(fld, dir)])
    ∧ (lookupSortField bookSortFields k = Option.none →
        BookDocumentFilterSet.buildQuery d
          = BookDocumentFilterSet.buildQuery (Data.erase d "sort")) := by
  refine ⟨?_, ?_, ?_⟩
  · intro fld dir hfd s
    have hreq : requestedSort d = some (fld, dir) := by
      unfold requestedSort
      rw [hs]
      exact hfd
    unfold applySort
    rw [hreq]
  · intro fld dir hfd
    have hreq : requestedSort d = some (fld, dir) := by
      unfold requestedSort
      rw [hs]
      exact hfd
    show (applySort d (BookDocumentFilterSet.filter d (Document.search BookDocument))).sorts
      = [(fld, dir)]
    unfold applySort
    rw [hreq]
    show (BookDocumentFilterSet.filter d (Document.search BookDocument)).sorts
      ++ [(fld, dir)] = [(fld, dir)]
    rw [show (BookDocumentFilterSet.filter d (Document.search BookDocument)).sorts = []
      from BookDocumentFilterSet.foldl_sorts bookFilters (Document.search BookDocument, d)]
    rfl
  · intro hnone
    have hreq : requestedSort d = Option.none := by
      unfold requestedSort
      rw [hs]
      exact hnone
    have hfilter : BookDocumentFilterSet.filter (Data.erase d "sort")
        (Document.search BookDocument)
        = BookDocumentFilterSet.filter d (Document.search BookDocument) := by
      refine BookDocumentFilterSet.foldl_congr (Data.erase d "sort") d ?_ bookFilters
        (Document.search BookDocument) ?_
      · exact Data.lookup_erase_ne d "sort" "price" (by decide)
      · intro nf hm
        have hne : nf.1 ≠ "sort" := by
          simp only [bookFilters, List.mem_cons, List.not_mem_nil, or_false] at hm
          rcases hm with h | h | h | h | h | h <;> subst h <;> decide
        exact Data.lookup_erase_ne d "sort" nf.1 hne
    have hsort : applySort d (BookDocumentFilterSet.filter d (Document.search BookDocument))
        = BookDocumentFilterSet.filter d (Document.search BookDocument) := by
      unfold applySort
      rw [hreq]
    unfold BookDocumentFilterSet.buildQuery
    rw [applySort_erase_sort, hfilter, hsort]
    unfold applyPagination
    rw [effectivePage_erase_sort, effectivePageSize_erase_sort]

/-- Witness for C3: the allowed key `-price` sorts descending on the
`price` field. -/
theorem sort_key_application_witness :
    applySort [("sort", Value.str "-price")] (Document.search BookDocument)
      = Search.sortBy (Document.search BookDocument) "price" false :=
  (sort_key_application [("sort", Value.str "-price")] "-price" rfl).1 "price" false
    rfl (Document.search BookDocument)

end OpensearchFiltering
